import Mathlib

/-!
# Verification of the prompt-cache lifecycle manager

A shallow embedding of the cache subsystem of the Claude-Interface terminal
application:

* `CacheMetadata`, `CacheStatus` — `src/src/cache/cache_models.py`
* `CacheManager.create_cache_point`, `prepare_messages_with_cache`,
  `update_from_response`, `get_cache_status_display`, `has_active_cache`
  — `src/terminal-app/src/cache/cache_manager.py`
* `CacheCommand.execute` (duration validation) — `src/src/commands/cache_commands.py`
* `ChatService.send_message` (annotation call site, gated on
  `cache_manager and cache_manager.has_active_cache()`) —
  `src/terminal-app/src/core/chat_service.py`

Modelling conventions:

* Python `datetime` values are modelled as `Nat` timestamps in seconds under a
  monotone clock; `datetime.now()` becomes an explicit `now : Nat` parameter.
  `int(delta.total_seconds() / 60)` becomes `Nat` floor division by 60, which
  agrees with Python truncation for non-negative deltas.
* Python `int` fields are modelled as `Int`.
* Python dict/list aliasing matters for `prepare_messages_with_cache`, which
  performs a *shallow* `msg.copy()`: a message whose `"content"` is a Python
  list holds a reference to a heap object shared with the caller.  We model
  the heap of content-block lists explicitly as a `Store`, and a list-valued
  content as a reference (`Content.listRef`) into it.  In-place mutation of a
  block (`last_block["cache_control"] = ...`) is an update of the store at
  that reference; a freshly constructed list is appended to the store at a
  fresh reference.  In well-formed states every reference is valid; an
  out-of-range reference passes through untouched.
* A message's `msg.get("content")` that is neither a string nor a list
  (absent or of another type) is modelled as `none`.
-/

namespace ClaudeInterface

/-- The `cache_control` marker dict attached to a content block. -/
structure CacheControl where
  type : String
  ttl : String
deriving Repr, DecidableEq

/-- A content block dict, restricted to the keys the cache code touches:
`block.get("type")`, `block["text"]`, `block["cache_control"]`. -/
structure Block where
  type : Option String
  text : Option String
  cache_control : Option CacheControl
deriving Repr, DecidableEq

/-- A message's `"content"` value: either a bare string or a (shared,
mutable) Python list of blocks, modelled as a reference into the `Store`. -/
inductive Content where
  | str (s : String)
  | listRef (r : Nat)
deriving Repr, DecidableEq

/-- A message dict: its role and its `msg.get("content")` (`none` models a
content that is absent or neither a string nor a list). -/
structure Msg where
  role : String
  content : Option Content
deriving Repr, DecidableEq

/-- The heap of content-block list objects, indexed by `Content.listRef`. -/
abbrev Store := List (List Block)

/-- The observable value of a content under a store: dereferencing a list
reference yields the block list it points to. -/
def contentValue (store : Store) : Option Content → Option (String ⊕ List Block)
  | some (.str s) => some (.inl s)
  | some (.listRef r) => (store.get? r).map Sum.inr
  | none => none

/-- The observable value of a message under a store. -/
def msgValue (store : Store) (m : Msg) : String × Option (String ⊕ List Block) :=
  (m.role, contentValue store m.content)

/-- `CacheStatus` from `cache_models.py`. -/
inductive CacheStatus where
  | ACTIVE
  | EXPIRED
  | NONE
deriving Repr, DecidableEq

/-- `CacheMetadata` from `cache_models.py` (timestamps in seconds). -/
structure CacheMetadata where
  cache_point_index : Int
  created_at : Nat
  duration_minutes : Int
  last_hit_at : Option Nat := none
  cache_creation_tokens : Int := 0
  cache_hit_tokens : Int := 0
  total_cached_messages : Int := 0
deriving Repr, DecidableEq

/-- `CacheMetadata.minutes_since_hit`: `int((now - last_hit_at).total_seconds() / 60)`. -/
def CacheMetadata.minutes_since_hit (m : CacheMetadata) (now : Nat) : Option Nat :=
  match m.last_hit_at with
  | none => none
  | some t => some ((now - t) / 60)

/-- `CacheMetadata.get_status`. -/
def CacheMetadata.get_status (m : CacheMetadata) (now : Nat) : CacheStatus :=
  match m.minutes_since_hit now with
  | none => .NONE
  | some mins => if (mins : Int) ≥ m.duration_minutes then .EXPIRED else .ACTIVE

/-- A value inside a persisted record: a Python int, an ISO-8601 datetime
string (carrying the timestamp it encodes), or `None`. -/
inductive JValue where
  | int (n : Int)
  | dt (t : Nat)
  | null
deriving Repr, DecidableEq

/-- A persisted record (Python dict with string keys). -/
abbrev JDict := List (String × JValue)

/-- `data.get(k)` / `data[k]` lookup (as `Option`). -/
def jget (d : JDict) (k : String) : Option JValue :=
  (d.find? (fun p => p.1 == k)).map Prod.snd

/-- Remove a key from a record (to build records with missing fields). -/
def eraseKey (d : JDict) (k : String) : JDict :=
  d.filter (fun p => p.1 != k)

/-- `data[k]` where an int is expected: raises `KeyError` when the key is
absent. -/
def reqInt (d : JDict) (k : String) : Except String Int :=
  match jget d k with
  | some (.int n) => .ok n
  | some _ => .error "TypeError"
  | none => .error "KeyError"

/-- `datetime.fromisoformat(data[k])`: raises when the key is absent or the
value is not an ISO datetime string. -/
def reqDt (d : JDict) (k : String) : Except String Nat :=
  match jget d k with
  | some (.dt t) => .ok t
  | some _ => .error "TypeError"
  | none => .error "KeyError"

/-- `datetime.fromisoformat(data["last_hit_at"]) if data.get("last_hit_at") else None`:
`None` (and absence) are falsy, so they yield `none`. -/
def optDt (d : JDict) (k : String) : Option Nat :=
  match jget d k with
  | some (.dt t) => some t
  | _ => none

/-- `data.get(k, 0)` where an int is expected. -/
def getIntD (d : JDict) (k : String) (dflt : Int) : Int :=
  match jget d k with
  | some (.int n) => n
  | _ => dflt

/-- `CacheMetadata.to_dict`. -/
def CacheMetadata.to_dict (m : CacheMetadata) : JDict :=
  [("cache_point_index", .int m.cache_point_index),
   ("created_at", .dt m.created_at),
   ("last_hit_at", match m.last_hit_at with
                   | some t => .dt t
                   | none => .null),
   ("cache_creation_tokens", .int m.cache_creation_tokens),
   ("cache_hit_tokens", .int m.cache_hit_tokens),
   ("total_cached_messages", .int m.total_cached_messages),
   ("duration_minutes", .int m.duration_minutes)]

/-- `CacheMetadata.from_dict`.  `cache_point_index`, `created_at` and
`duration_minutes` are indexed directly (a missing key propagates an error);
the token/count fields use `data.get(..., 0)`; `last_hit_at` is optional. -/
def CacheMetadata.from_dict (data : JDict) : Except String CacheMetadata :=
  match reqInt data "cache_point_index" with
  | .error e => .error e
  | .ok idx =>
    match reqDt data "created_at" with
    | .error e => .error e
    | .ok created =>
      match reqInt data "duration_minutes" with
      | .error e => .error e
      | .ok dur =>
        .ok { cache_point_index := idx
              created_at := created
              last_hit_at := optDt data "last_hit_at"
              cache_creation_tokens := getIntD data "cache_creation_tokens" 0
              cache_hit_tokens := getIntD data "cache_hit_tokens" 0
              total_cached_messages := getIntD data "total_cached_messages" 0
              duration_minutes := dur }

/-- `CacheManager.create_cache_point`.  The manager's state is its optional
`cache_metadata`; the conversation's message list only contributes its
length, so it may hold messages of any type.  Returns the new state and
`some cache_index` on success, or the unchanged state and `none` (the
printed rejection) when the conversation is empty. -/
def create_cache_point {α : Type} (meta : Option CacheMetadata) (messages : List α)
    (duration_minutes : Int) (now : Nat) : Option CacheMetadata × Option Int :=
  if messages.isEmpty then (meta, none)
  else
    let cache_index : Int := (messages.length : Int) - 1
    (some { cache_point_index := cache_index
            created_at := now
            total_cached_messages := cache_index + 1
            last_hit_at := none
            duration_minutes := duration_minutes
            cache_creation_tokens := 0
            cache_hit_tokens := 0 },
     some cache_index)

/-- One iteration of the loop in `prepare_messages_with_cache`:
`msg_copy = msg.copy()` is a shallow copy (the content reference is shared),
then at the cache boundary a string content is replaced by a freshly
allocated one-block list, while a list content has its last block mutated
in place (an update of the shared store entry) when its type is
text/image/document. -/
def prepareMsg (idx : Int) (ttl : String) (i : Nat) (msg : Msg) (store : Store) :
    Msg × Store :=
  if (i : Int) = idx then
    match msg.content with
    | some (.str s) =>
        ({ msg with content := some (.listRef store.length) },
         store ++ [[{ type := some "text", text := some s,
                      cache_control := some { type := "ephemeral", ttl := ttl } }]])
    | some (.listRef r) =>
        match store.get? r with
        | some blocks =>
            match blocks.getLast? with
            | some last =>
                if last.type = some "text" ∨ last.type = some "image" ∨
                    last.type = some "document" then
                  (msg, store.set r (blocks.dropLast ++
                    [{ last with cache_control := some ⟨"ephemeral", ttl⟩ }]))
                else (msg, store)
            | none => (msg, store)
        | none => (msg, store)
    | none => (msg, store)
  else (msg, store)

/-- The `for i, msg in enumerate(messages)` loop of
`prepare_messages_with_cache`, threading the store. -/
def prepareLoop (idx : Int) (ttl : String) : Nat → List Msg → Store → List Msg × Store
  | _, [], store => ([], store)
  | i, m :: ms, store =>
      let p := prepareMsg idx ttl i m store
      let rest := prepareLoop idx ttl (i + 1) ms p.2
      (p.1 :: rest.1, rest.2)

/-- `CacheManager.prepare_messages_with_cache`.  Passes the input through
when there is no metadata, the list is empty, or the cache was already
created (`cache_creation_tokens > 0`); otherwise runs the annotation loop. -/
def prepare_messages_with_cache (meta : Option CacheMetadata) (messages : List Msg)
    (store : Store) : List Msg × Store :=
  match meta with
  | none => (messages, store)
  | some m =>
      if messages.isEmpty then (messages, store)
      else if m.cache_creation_tokens > 0 then (messages, store)
      else
        prepareLoop m.cache_point_index
          (if m.duration_minutes = 60 then "1h" else "5m") 0 messages store

/-- The cache-relevant usage counters of an API response:
`usage.get("cache_creation_input_tokens", 0)` and
`usage.get("cache_read_input_tokens", 0)` (absent keys default to 0). -/
structure Usage where
  cache_creation_input_tokens : Int := 0
  cache_read_input_tokens : Int := 0
deriving Repr, DecidableEq

/-- `CacheManager.update_from_response`. -/
def update_from_response (meta : Option CacheMetadata) (usage : Usage) (now : Nat) :
    Option CacheMetadata :=
  match meta with
  | none => none
  | some m =>
      let m1 :=
        if usage.cache_creation_input_tokens > 0 ∧ m.cache_creation_tokens = 0 then
          { m with cache_creation_tokens := usage.cache_creation_input_tokens
                   last_hit_at := some now }
        else m
      let m2 :=
        if usage.cache_read_input_tokens > 0 then
          { m1 with cache_hit_tokens := usage.cache_read_input_tokens
                    last_hit_at := some now }
        else m1
      some m2

/-- `CacheManager.get_cache_status_display`. -/
def get_cache_status_display (meta : Option CacheMetadata) (now : Nat) :
    String × String :=
  match meta with
  | none => ("", "")
  | some m =>
      match m.minutes_since_hit now with
      | none => ("", "")
      | some mins =>
          if (mins : Int) ≥ m.duration_minutes then ("expired", "red")
          else ("active", "green")

/-- `CacheManager.has_active_cache`. -/
def has_active_cache (meta : Option CacheMetadata) (now : Nat) : Bool :=
  match meta with
  | none => false
  | some m => m.get_status now = .ACTIVE

/-- The annotation call site in `ChatService.send_message`
(`src/terminal-app/src/core/chat_service.py` lines 28-30):
`if cache_manager and cache_manager.has_active_cache(): messages = prepare_messages_with_cache(messages)`.
The manager's presence is the metadata option itself; `has_active_cache`
already returns `false` without metadata, so the combined gate is exactly
`has_active_cache meta now`.  The result is the message list actually
placed in the outgoing request. -/
def send_message_prepare (meta : Option CacheMetadata) (messages : List Msg)
    (store : Store) (now : Nat) : List Msg × Store :=
  if has_active_cache meta now then
    prepare_messages_with_cache meta messages store
  else (messages, store)

/-- Outcome of the `/cache <n>` command path. -/
inductive CacheCmdOutcome where
  | invalidDuration
  | noMessages
  | created (idx : Int)
deriving Repr, DecidableEq

/-- `CacheCommand.execute` with a numeric argument: rejects a duration not
in `[5, 60]` before anything else; otherwise `_create_cache_point` checks
for an empty conversation and then calls `CacheManager.create_cache_point`. -/
def cache_command_execute {α : Type} (meta : Option CacheMetadata) (messages : List α)
    (duration_minutes : Int) (now : Nat) : Option CacheMetadata × CacheCmdOutcome :=
  if duration_minutes = 5 ∨ duration_minutes = 60 then
    if messages.isEmpty then (meta, .noMessages)
    else
      match create_cache_point meta messages duration_minutes now with
      | (meta2, some idx) => (meta2, .created idx)
      | (meta2, none) => (meta2, .noMessages)
  else (meta, .invalidDuration)

/-! ## Helper lemmas about the annotation loop -/

/-- A loop step away from the cache boundary copies the message and leaves
the store alone. -/
theorem prepareMsg_ne (idx : Int) (ttl : String) (i : Nat) (m : Msg) (store : Store)
    (h : (i : Int) ≠ idx) : prepareMsg idx ttl i m store = (m, store) := by
  simp [prepareMsg, h]

/-- A run of the loop that never meets the cache boundary is the identity. -/
theorem prepareLoop_skip (idx : Int) (ttl : String) :
    ∀ (ms : List Msg) (i : Nat) (store : Store),
      (∀ j, j < ms.length → ((i + j : Nat) : Int) ≠ idx) →
      prepareLoop idx ttl i ms store = (ms, store) := by
  intro ms
  induction ms with
  | nil => intro i store _; rfl
  | cons m tl ih =>
      intro i store h
      have h0 : (i : Int) ≠ idx := by
        have := h 0 (Nat.succ_pos _)
        simpa using this
      have htl : ∀ j, j < tl.length → ((i + 1 + j : Nat) : Int) ≠ idx := by
        intro j hj
        have := h (j + 1) (by simpa using Nat.succ_lt_succ hj)
        have e : i + (j + 1) = i + 1 + j := by omega
        simpa [e] using this
      simp [prepareLoop, prepareMsg_ne idx ttl i m store h0, ih (i + 1) store htl]

/-- Splitting the loop at the cache boundary: with the boundary sitting
exactly at position `i + pre.length`, the messages before and after it pass
through untouched and only the boundary message (and the store) change. -/
theorem prepareLoop_split (idx : Int) (ttl : String) (pre : List Msg) :
    ∀ (i : Nat) (m : Msg) (post : List Msg) (store : Store),
      ((i + pre.length : Nat) : Int) = idx →
      prepareLoop idx ttl i (pre ++ m :: post) store =
        (pre ++ (prepareMsg idx ttl (i + pre.length) m store).1 :: post,
         (prepareMsg idx ttl (i + pre.length) m store).2) := by
  induction pre with
  | nil =>
      intro i m post store h
      simp only [List.length_nil, Nat.add_zero] at h ⊢
      have hpost : ∀ j, j < post.length → ((i + 1 + j : Nat) : Int) ≠ idx := by
        intro j hj hc
        omega
      simp [List.nil_append, prepareLoop,
        prepareLoop_skip idx ttl post (i + 1) _ hpost]
  | cons q pre' ih =>
      intro i m post store h
      simp only [List.length_cons] at h
      have hne : (i : Int) ≠ idx := by
        intro hc
        omega
      have h' : ((i + 1 + pre'.length : Nat) : Int) = idx := by
        omega
      have e : i + (q :: pre').length = i + 1 + pre'.length := by
        simp only [List.length_cons]
        omega
      rw [e]
      have step : prepareLoop idx ttl i ((q :: pre') ++ m :: post) store =
          (q :: (prepareLoop idx ttl (i + 1) (pre' ++ m :: post) store).1,
           (prepareLoop idx ttl (i + 1) (pre' ++ m :: post) store).2) := by
        simp [List.cons_append, prepareLoop, prepareMsg_ne idx ttl i q store hne]
      rw [step, ih (i + 1) m post store h']
      simp [List.cons_append]

/-- `prepare_messages_with_cache` on a list whose boundary message sits at
position `pre.length`: the whole call reduces to the single boundary step. -/
theorem prepare_split (m : CacheMetadata) (pre post : List Msg) (b : Msg) (store : Store)
    (hcr : ¬ m.cache_creation_tokens > 0)
    (hidx : (pre.length : Int) = m.cache_point_index) :
    prepare_messages_with_cache (some m) (pre ++ b :: post) store =
      (pre ++ (prepareMsg m.cache_point_index
          (if m.duration_minutes = 60 then "1h" else "5m") pre.length b store).1 :: post,
       (prepareMsg m.cache_point_index
          (if m.duration_minutes = 60 then "1h" else "5m") pre.length b store).2) := by
  have h0 : ((0 + pre.length : Nat) : Int) = m.cache_point_index := by
    simpa using hidx
  have hsplit := prepareLoop_split m.cache_point_index
    (if m.duration_minutes = 60 then "1h" else "5m") pre 0 b post store h0
  simp only [Nat.zero_add] at hsplit
  simp [prepare_messages_with_cache, hcr, hsplit]

/-! ## Claim C1 -/

/-- C1: the claim says `prepare_messages_with_cache` never mutates an input
message in place.  The code's `msg.copy()` is a shallow copy, so annotating
the last block of a list-content boundary message writes through the shared
reference into the caller's own block list.  Evaluated at the failing input
(one message whose content is the shared block list `[text "hello"]`, with a
fresh checkpoint at index 0 and duration 5): the call leaves the message's
content reference intact but rewrites the store entry it shares with the
caller, so the observable value of the *original* message after the call
differs from its value before the call. -/
theorem C1_shallow_copy_mutates_caller :
    prepare_messages_with_cache
        (some { cache_point_index := 0, created_at := 0, duration_minutes := 5 })
        [{ role := "user", content := some (.listRef 0) }]
        [[{ type := some "text", text := some "hello", cache_control := none }]] =
      ([{ role := "user", content := some (.listRef 0) }],
       [[{ type := some "text", text := some "hello",
           cache_control := some { type := "ephemeral", ttl := "5m" } }]]) ∧
    msgValue [[{ type := some "text", text := some "hello",
                 cache_control := some { type := "ephemeral", ttl := "5m" } }]]
        { role := "user", content := some (.listRef 0) } ≠
      msgValue [[{ type := some "text", text := some "hello", cache_control := none }]]
        { role := "user", content := some (.listRef 0) } := by
  exact ⟨by decide, by decide⟩

/-! ## Claim C2 -/

/-- C2 counterexample, both halves of the claim at the cited
`send_message` call site.  First: immediately after `create_cache_point`
(checkpoint exists, `last_hit_at` absent, status `NONE`) the next outgoing
request does *not* carry the annotation — `has_active_cache` gates the
call to `prepare_messages_with_cache`, so the messages pass through
untouched (the lone message keeps its bare-string content, which carries
no cache marker), refuting "the next outgoing request already carries the
annotation".  Second: a checkpoint that exists and is `ACTIVE` but whose
`cache_creation_tokens` were already recorded also gets no annotation,
refuting "re-annotation continues on each subsequent request for as long
as the checkpoint is active". -/
theorem C2_counterexample :
    ((create_cache_point (none : Option CacheMetadata)
        ([{ role := "user", content := some (.str "hi") }] : List Msg) 5 0).1 =
      some { cache_point_index := 0, created_at := 0, duration_minutes := 5,
             total_cached_messages := 1 } ∧
     CacheMetadata.get_status
       { cache_point_index := 0, created_at := 0, duration_minutes := 5,
         total_cached_messages := 1 } 0 = .NONE ∧
     send_message_prepare
        (some { cache_point_index := 0, created_at := 0, duration_minutes := 5,
                total_cached_messages := 1 })
        [{ role := "user", content := some (.str "hi") }] [] 0 =
      ([{ role := "user", content := some (.str "hi") }], [])) ∧
    (CacheMetadata.get_status
      { cache_point_index := 0, created_at := 0, duration_minutes := 5,
        last_hit_at := some 0, cache_creation_tokens := 100,
        cache_hit_tokens := 0, total_cached_messages := 1 } 60 = .ACTIVE ∧
     send_message_prepare
        (some { cache_point_index := 0, created_at := 0, duration_minutes := 5,
                last_hit_at := some 0, cache_creation_tokens := 100,
                cache_hit_tokens := 0, total_cached_messages := 1 })
        [{ role := "user", content := some (.str "hi") }] [] 60 =
      ([{ role := "user", content := some (.str "hi") }], [])) := by
  exact ⟨⟨by decide, by decide, by decide⟩, ⟨by decide, by decide⟩⟩

/-- C2 amended: at the `send_message` call site the cache-control
annotation is applied exactly when the checkpoint's status is `ACTIVE`
*and* its `cache_creation_tokens` are still unrecorded.  Part (1): with a
checkpoint whose status is not `ACTIVE` the request is sent unannotated.
Part (2): in particular, right after `create_cache_point` — before any
usage feedback — every outgoing request passes through untouched
(`last_hit_at` is absent, so `has_active_cache` is false).  Part (3):
with an `ACTIVE` checkpoint whose creation tokens are still non-positive,
the request carries the marker at the checkpoint index (string-content
boundary message shown; request after request, as long as that state
persists).  Part (4): once `cache_creation_tokens > 0`, the request is
sent unannotated regardless of status. -/
theorem C2_annotate_active_uncreated_only :
    (∀ (m : CacheMetadata) (messages : List Msg) (store : Store) (now : Nat),
      m.get_status now ≠ .ACTIVE →
      send_message_prepare (some m) messages store now = (messages, store)) ∧
    (∀ (st : Option CacheMetadata) (msgs : List Msg) (d : Int) (now : Nat)
        (m' : CacheMetadata),
      msgs ≠ [] → (create_cache_point st msgs d now).1 = some m' →
      ∀ (messages : List Msg) (store : Store) (now2 : Nat),
      send_message_prepare (some m') messages store now2 = (messages, store)) ∧
    (∀ (m : CacheMetadata) (pre post : List Msg) (mr s : String) (store : Store)
        (now : Nat),
      m.get_status now = .ACTIVE →
      ¬ m.cache_creation_tokens > 0 →
      (pre.length : Int) = m.cache_point_index →
      send_message_prepare (some m)
          (pre ++ { role := mr, content := some (.str s) } :: post) store now =
        (pre ++ { role := mr, content := some (.listRef store.length) } :: post,
         store ++ [[{ type := some "text", text := some s,
                      cache_control := some { type := "ephemeral",
                                              ttl := if m.duration_minutes = 60
                                                     then "1h" else "5m" } }]])) ∧
    (∀ (m : CacheMetadata) (messages : List Msg) (store : Store) (now : Nat),
      m.cache_creation_tokens > 0 →
      send_message_prepare (some m) messages store now = (messages, store)) := by
  have hpass : ∀ (m : CacheMetadata) (messages : List Msg) (store : Store) (now : Nat),
      m.get_status now ≠ .ACTIVE →
      send_message_prepare (some m) messages store now = (messages, store) := by
    intro m messages store now h
    simp [send_message_prepare, has_active_cache, h]
  refine ⟨hpass, ?_, ?_, ?_⟩
  · intro st msgs d now m' hne hcreate
    cases msgs with
    | nil => exact absurd rfl hne
    | cons a l =>
        simp [create_cache_point] at hcreate
        subst hcreate
        intro messages store now2
        exact hpass _ messages store now2
          (by simp [CacheMetadata.get_status, CacheMetadata.minutes_since_hit])
  · intro m pre post mr s store now hstatus hcr hidx
    have hact : has_active_cache (some m) now = true := by
      simp [has_active_cache, hstatus]
    simp only [send_message_prepare, hact, if_true]
    rw [prepare_split m pre post _ store hcr hidx]
    simp [prepareMsg, hidx]
  · intro m messages store now hcr
    by_cases hact : has_active_cache (some m) now = true
    · simp only [send_message_prepare, hact, if_true]
      cases messages with
      | nil => simp [prepare_messages_with_cache]
      | cons a l => simp [prepare_messages_with_cache, hcr]
    · simp [send_message_prepare, hact]

/-- Witness for C2's amended theorem: parts (1)–(4) at concrete inputs.
The part-(3) checkpoint (`last_hit_at = 0`, duration 5, no creation
tokens yet, clock at 60 seconds) is `ACTIVE` and gets annotated; the
part-(1), part-(2) and part-(4) requests pass through untouched. -/
theorem C2_annotate_active_uncreated_only_witness :
    send_message_prepare
        (some { cache_point_index := 0, created_at := 0, duration_minutes := 5,
                last_hit_at := some 0, total_cached_messages := 1 })
        [{ role := "user", content := some (.str "hi") }] [] 400 =
      ([{ role := "user", content := some (.str "hi") }], []) ∧
    send_message_prepare
        (some { cache_point_index := 1, created_at := 9, duration_minutes := 60,
                total_cached_messages := 2 })
        [{ role := "user", content := some (.str "q") },
         { role := "assistant", content := some (.str "a") }] [] 9 =
      ([{ role := "user", content := some (.str "q") },
        { role := "assistant", content := some (.str "a") }], []) ∧
    send_message_prepare
        (some { cache_point_index := 0, created_at := 0, duration_minutes := 5,
                last_hit_at := some 0, cache_hit_tokens := 10,
                total_cached_messages := 1 })
        [{ role := "user", content := some (.str "hi") }] [] 60 =
      ([{ role := "user", content := some (.listRef 0) }],
       [[{ type := some "text", text := some "hi",
           cache_control := some { type := "ephemeral", ttl := "5m" } }]]) ∧
    send_message_prepare
        (some { cache_point_index := 0, created_at := 0, duration_minutes := 5,
                last_hit_at := some 0, cache_creation_tokens := 7,
                total_cached_messages := 1 })
        [{ role := "user", content := some (.str "hi") }] [] 60 =
      ([{ role := "user", content := some (.str "hi") }], []) := by
  refine ⟨?_, ?_, ?_, ?_⟩
  · exact C2_annotate_active_uncreated_only.1
      { cache_point_index := 0, created_at := 0, duration_minutes := 5,
        last_hit_at := some 0, total_cached_messages := 1 }
      [{ role := "user", content := some (.str "hi") }] ([]) 400 (by decide)
  · exact C2_annotate_active_uncreated_only.2.1 none
      ([{ role := "user", content := some (.str "q") },
        { role := "assistant", content := some (.str "a") }] : List Msg) 60 9
      { cache_point_index := 1, created_at := 9, duration_minutes := 60,
        total_cached_messages := 2 }
      (by decide) (by decide)
      [{ role := "user", content := some (.str "q") },
       { role := "assistant", content := some (.str "a") }] ([]) 9
  · have h := C2_annotate_active_uncreated_only.2.2.1
      { cache_point_index := 0, created_at := 0, duration_minutes := 5,
        last_hit_at := some 0, cache_hit_tokens := 10,
        total_cached_messages := 1 }
      ([]) ([]) "user" "hi" ([]) 60 (by decide) (by decide) (by decide)
    simpa using h
  · exact C2_annotate_active_uncreated_only.2.2.2
      { cache_point_index := 0, created_at := 0, duration_minutes := 5,
        last_hit_at := some 0, cache_creation_tokens := 7,
        total_cached_messages := 1 }
      [{ role := "user", content := some (.str "hi") }] ([]) 60 (by decide)
/-! ## Claim C3 -/

/-- C3 counterexample: the claim's ttl formula is `"5m" if d = 5 else "1h"`,
but the code computes `"1h" if d == 60 else "5m"`.  A checkpoint with
duration 10 is constructible (`create_cache_point` itself does not validate
the duration), and annotating under it yields ttl `"5m"` where the claim's
formula demands `"1h"`. -/
theorem C3_counterexample :
    (create_cache_point (none : Option CacheMetadata)
        ([{ role := "user", content := some (.str "hi") }] : List Msg) 10 0).1 =
      some { cache_point_index := 0, created_at := 0, duration_minutes := 10,
             total_cached_messages := 1 } ∧
    prepare_messages_with_cache
        (some { cache_point_index := 0, created_at := 0, duration_minutes := 10,
                total_cached_messages := 1 })
        [{ role := "user", content := some (.str "hi") }] [] =
      ([{ role := "user", content := some (.listRef 0) }],
       [[{ type := some "text", text := some "hi",
           cache_control := some { type := "ephemeral", ttl := "5m" } }]]) ∧
    (if (10 : Int) = 5 then "5m" else "1h") = "1h" ∧
    ("5m" : String) ≠ "1h" := by
  exact ⟨by decide, by decide, by decide, by decide⟩

/-- C3 amended: when a checkpoint with duration `d` exists and the
annotation pass runs (`cache_creation_tokens` not positive), with
`ttl := "1h" if d = 60 else "5m"`: a string-content message at the
checkpoint index becomes a one-element block list of type `"text"` carrying
the original string verbatim plus the marker `{ephemeral, ttl}`; a
list-content message there gets the marker on its last block only, and only
if that block's type is text/image/document; an unrecognized last-block
type is returned unmarked and without failure; content of any other shape
at the boundary, and every message before or after the boundary (`pre` and
`post` reappear verbatim), is unchanged. -/
theorem C3_annotate_shape :
    ∀ (meta : CacheMetadata) (pre post : List Msg) (b : Msg) (store : Store),
      ¬ meta.cache_creation_tokens > 0 →
      (pre.length : Int) = meta.cache_point_index →
      ((∀ s, b.content = some (.str s) →
        prepare_messages_with_cache (some meta) (pre ++ b :: post) store =
          (pre ++ { b with content := some (.listRef store.length) } :: post,
           store ++ [[{ type := some "text", text := some s,
                        cache_control := some ⟨"ephemeral",
                          if meta.duration_minutes = 60 then "1h" else "5m"⟩ }]])) ∧
       (∀ r blocks last, b.content = some (.listRef r) → store.get? r = some blocks →
        blocks.getLast? = some last →
        (last.type = some "text" ∨ last.type = some "image" ∨
          last.type = some "document") →
        prepare_messages_with_cache (some meta) (pre ++ b :: post) store =
          (pre ++ b :: post,
           store.set r (blocks.dropLast ++
             [{ last with cache_control := some ⟨"ephemeral",
                  if meta.duration_minutes = 60 then "1h" else "5m"⟩ }]))) ∧
       (∀ r blocks last, b.content = some (.listRef r) → store.get? r = some blocks →
        blocks.getLast? = some last →
        ¬(last.type = some "text" ∨ last.type = some "image" ∨
          last.type = some "document") →
        prepare_messages_with_cache (some meta) (pre ++ b :: post) store =
          (pre ++ b :: post, store)) ∧
       (b.content = none →
        prepare_messages_with_cache (some meta) (pre ++ b :: post) store =
          (pre ++ b :: post, store))) := by
  intro meta pre post b store hcr hidx
  refine ⟨?_, ?_, ?_, ?_⟩
  · intro s hb
    rw [prepare_split meta pre post b store hcr hidx]
    simp [prepareMsg, hidx, hb]
  · intro r blocks last hb hget hlast htype
    rw [prepare_split meta pre post b store hcr hidx]
    simp only [List.get?_eq_getElem?] at hget
    simp [prepareMsg, hidx, hb, hget, hlast, htype]
  · intro r blocks last hb hget hlast htype
    rw [prepare_split meta pre post b store hcr hidx]
    simp only [List.get?_eq_getElem?] at hget
    simp [prepareMsg, hidx, hb, hget, hlast, htype]
  · intro hb
    rw [prepare_split meta pre post b store hcr hidx]
    simp [prepareMsg, hidx, hb]

/-- Witness for C3's amended theorem: the string branch and the
unrecognized-last-block branch at concrete inputs. -/
theorem C3_annotate_shape_witness :
    prepare_messages_with_cache
        (some { cache_point_index := 1, created_at := 0, duration_minutes := 60 })
        [{ role := "user", content := some (.str "q") },
         { role := "assistant", content := some (.str "a") }] [] =
      ([{ role := "user", content := some (.str "q") },
        { role := "assistant", content := some (.listRef 0) }],
       [[{ type := some "text", text := some "a",
           cache_control := some { type := "ephemeral", ttl := "1h" } }]]) ∧
    prepare_messages_with_cache
        (some { cache_point_index := 0, created_at := 0, duration_minutes := 5 })
        [{ role := "user", content := some (.listRef 0) }]
        [[{ type := some "tool_use", text := none, cache_control := none }]] =
      ([{ role := "user", content := some (.listRef 0) }],
       [[{ type := some "tool_use", text := none, cache_control := none }]]) := by
  constructor
  · have h := (C3_annotate_shape
      { cache_point_index := 1, created_at := 0, duration_minutes := 60 }
      [{ role := "user", content := some (.str "q") }] []
      { role := "assistant", content := some (.str "a") } []
      (by decide) (by decide)).1 "a" rfl
    simpa using h
  · have h := ((C3_annotate_shape
      { cache_point_index := 0, created_at := 0, duration_minutes := 5 }
      [] [] { role := "user", content := some (.listRef 0) }
      [[{ type := some "tool_use", text := none, cache_control := none }]]
      (by decide) (by decide)).2.2.1 0
      [{ type := some "tool_use", text := none, cache_control := none }]
      { type := some "tool_use", text := none, cache_control := none }
      rfl rfl rfl (by decide))
    simpa using h

/-! ## Claim C4 -/

/-- C4 counterexample: the claim says `last_hit_at := now` fires *whenever*
the usage reports `cache_creation_input_tokens > 0`.  In the code the whole
creation branch — including the `last_hit_at` update — is guarded by the
stored `cache_creation_tokens == 0`, so a later creation report (a cache
re-creation after expiry) with no read tokens changes nothing: at this
concrete input the state is returned identical and `last_hit_at` is not
`now`. -/
theorem C4_counterexample :
    update_from_response
        (some { cache_point_index := 0, created_at := 0, duration_minutes := 5,
                last_hit_at := some 0, cache_creation_tokens := 100,
                cache_hit_tokens := 0, total_cached_messages := 1 })
        { cache_creation_input_tokens := 50, cache_read_input_tokens := 0 } 120 =
      some { cache_point_index := 0, created_at := 0, duration_minutes := 5,
             last_hit_at := some 0, cache_creation_tokens := 100,
             cache_hit_tokens := 0, total_cached_messages := 1 } ∧
    (some 0 : Option Nat) ≠ some 120 := by
  exact ⟨by decide, by decide⟩

/-- C4 amended: `update_from_response` is a no-op without a checkpoint; the
creation branch (set `cache_creation_tokens` and `last_hit_at := now`)
fires only when the usage reports creation tokens > 0 *and* the stored
`cache_creation_tokens` is still 0 (set-once); the read branch (set
`cache_hit_tokens := read` and `last_hit_at := now`) fires whenever the
usage reports read tokens > 0; the two branches are independent and may
both fire on one response; when neither fires the state is unchanged. -/
theorem C4_update_from_usage :
    (∀ (u : Usage) (now : Nat), update_from_response none u now = none) ∧
    (∀ (m : CacheMetadata) (u : Usage) (now : Nat),
      u.cache_creation_input_tokens > 0 → m.cache_creation_tokens = 0 →
      ¬ u.cache_read_input_tokens > 0 →
      update_from_response (some m) u now =
        some { m with cache_creation_tokens := u.cache_creation_input_tokens,
                      last_hit_at := some now }) ∧
    (∀ (m : CacheMetadata) (u : Usage) (now : Nat),
      ¬(u.cache_creation_input_tokens > 0 ∧ m.cache_creation_tokens = 0) →
      u.cache_read_input_tokens > 0 →
      update_from_response (some m) u now =
        some { m with cache_hit_tokens := u.cache_read_input_tokens,
                      last_hit_at := some now }) ∧
    (∀ (m : CacheMetadata) (u : Usage) (now : Nat),
      u.cache_creation_input_tokens > 0 → m.cache_creation_tokens = 0 →
      u.cache_read_input_tokens > 0 →
      update_from_response (some m) u now =
        some { m with cache_creation_tokens := u.cache_creation_input_tokens,
                      cache_hit_tokens := u.cache_read_input_tokens,
                      last_hit_at := some now }) ∧
    (∀ (m : CacheMetadata) (u : Usage) (now : Nat),
      ¬(u.cache_creation_input_tokens > 0 ∧ m.cache_creation_tokens = 0) →
      ¬ u.cache_read_input_tokens > 0 →
      update_from_response (some m) u now = some m) := by
  refine ⟨fun u now => rfl, ?_, ?_, ?_, ?_⟩
  · intro m u now hc hz hr
    simp [update_from_response, hc, hz, hr]
  · intro m u now hcz hr
    simp [update_from_response, hcz, hr]
  · intro m u now hc hz hr
    simp [update_from_response, hc, hz, hr]
  · intro m u now hcz hr
    simp [update_from_response, hcz, hr]

/-- Witness for C4's amended theorem: all five parts at concrete inputs. -/
theorem C4_update_from_usage_witness :
    update_from_response none { cache_creation_input_tokens := 9 } 7 = none ∧
    update_from_response
        (some { cache_point_index := 0, created_at := 0, duration_minutes := 5 })
        { cache_creation_input_tokens := 1200, cache_read_input_tokens := 0 } 30 =
      some { cache_point_index := 0, created_at := 0, duration_minutes := 5,
             last_hit_at := some 30, cache_creation_tokens := 1200 } ∧
    update_from_response
        (some { cache_point_index := 0, created_at := 0, duration_minutes := 5,
                cache_creation_tokens := 1200 })
        { cache_creation_input_tokens := 0, cache_read_input_tokens := 800 } 90 =
      some { cache_point_index := 0, created_at := 0, duration_minutes := 5,
             last_hit_at := some 90, cache_creation_tokens := 1200,
             cache_hit_tokens := 800 } ∧
    update_from_response
        (some { cache_point_index := 0, created_at := 0, duration_minutes := 5 })
        { cache_creation_input_tokens := 3, cache_read_input_tokens := 4 } 11 =
      some { cache_point_index := 0, created_at := 0, duration_minutes := 5,
             last_hit_at := some 11, cache_creation_tokens := 3,
             cache_hit_tokens := 4 } ∧
    update_from_response
        (some { cache_point_index := 0, created_at := 0, duration_minutes := 5,
                cache_creation_tokens := 1200 })
        { cache_creation_input_tokens := 2, cache_read_input_tokens := 0 } 44 =
      some { cache_point_index := 0, created_at := 0, duration_minutes := 5,
             cache_creation_tokens := 1200 } := by
  refine ⟨C4_update_from_usage.1 _ 7, ?_, ?_, ?_, ?_⟩
  · exact C4_update_from_usage.2.1 _ _ 30 (by decide) (by decide) (by decide)
  · exact C4_update_from_usage.2.2.1 _ _ 90 (by decide) (by decide)
  · exact C4_update_from_usage.2.2.2.1 _ _ 11 (by decide) (by decide) (by decide)
  · exact C4_update_from_usage.2.2.2.2 _ _ 44 (by decide) (by decide)

/-! ## Claim C5 -/

/-- C5: checkpoint status is a pure function of `last_hit_at`,
`duration_minutes` and the current time: it is `NONE` when no checkpoint
exists (the display and activity checks return their empty results) or when
`last_hit_at` is absent, `ACTIVE` when elapsed whole minutes since
`last_hit_at` are below `duration_minutes`, and `EXPIRED` once they reach
it; after `create_cache_point` the status is `NONE` (at every clock
reading) until `update_from_response` sets `last_hit_at`, after which it is
`ACTIVE` until elapsed minutes reach the duration and `EXPIRED` from then
on. -/
theorem C5_status_lifecycle :
    (∀ (m1 m2 : CacheMetadata) (now : Nat), m1.last_hit_at = m2.last_hit_at →
      m1.duration_minutes = m2.duration_minutes →
      m1.get_status now = m2.get_status now) ∧
    (∀ now : Nat, get_cache_status_display none now = ("", "") ∧
      has_active_cache none now = false) ∧
    (∀ (m : CacheMetadata) (now : Nat), m.last_hit_at = none →
      m.get_status now = .NONE) ∧
    (∀ (m : CacheMetadata) (now t : Nat), m.last_hit_at = some t →
      (m.get_status now = .ACTIVE ↔ (((now - t) / 60 : Nat) : Int) < m.duration_minutes) ∧
      (m.get_status now = .EXPIRED ↔ m.duration_minutes ≤ (((now - t) / 60 : Nat) : Int))) ∧
    (∀ (st : Option CacheMetadata) (msgs : List Msg) (d : Int) (now now2 : Nat)
        (m' : CacheMetadata),
      msgs ≠ [] → (create_cache_point st msgs d now).1 = some m' →
      m'.get_status now2 = .NONE) ∧
    (∀ (m m' : CacheMetadata) (u : Usage) (now : Nat),
      update_from_response (some m) u now = some m' →
      ((u.cache_creation_input_tokens > 0 ∧ m.cache_creation_tokens = 0) ∨
        u.cache_read_input_tokens > 0) →
      m'.last_hit_at = some now ∧ m'.duration_minutes = m.duration_minutes ∧
      ∀ now2 : Nat, m'.get_status now2 =
        if m.duration_minutes ≤ (((now2 - now) / 60 : Nat) : Int) then .EXPIRED
        else .ACTIVE) := by
  refine ⟨?_, ?_, ?_, ?_, ?_, ?_⟩
  · intro m1 m2 now h1 h2
    cases h : m2.last_hit_at <;>
      simp [CacheMetadata.get_status, CacheMetadata.minutes_since_hit, h1, h2, h]
  · intro now
    exact ⟨rfl, rfl⟩
  · intro m now h
    simp [CacheMetadata.get_status, CacheMetadata.minutes_since_hit, h]
  · intro m now t hlast
    simp only [CacheMetadata.get_status, CacheMetadata.minutes_since_hit, hlast]
    by_cases hge : (((now - t) / 60 : Nat) : Int) ≥ m.duration_minutes
    · rw [if_pos hge]
      exact ⟨⟨fun hc => absurd hc (by decide), fun hlt => absurd hge (by omega)⟩,
             ⟨fun _ => hge, fun _ => rfl⟩⟩
    · rw [if_neg hge]
      exact ⟨⟨fun _ => by omega, fun _ => rfl⟩,
             ⟨fun hc => absurd hc (by decide), fun hle => absurd hle (by omega)⟩⟩
  · intro st msgs d now now2 m' hne hcreate
    cases msgs with
    | nil => exact absurd rfl hne
    | cons a l =>
        simp [create_cache_point] at hcreate
        subst hcreate
        rfl
  · intro m m' u now hupd hfire
    by_cases hc : u.cache_creation_input_tokens > 0 ∧ m.cache_creation_tokens = 0
    · by_cases hr : u.cache_read_input_tokens > 0
      · simp only [update_from_response, if_pos hc, if_pos hr,
          Option.some.injEq] at hupd
        subst hupd
        refine ⟨rfl, rfl, fun now2 => ?_⟩
        simp [CacheMetadata.get_status, CacheMetadata.minutes_since_hit, ge_iff_le]
      · simp only [update_from_response, if_pos hc, if_neg hr,
          Option.some.injEq] at hupd
        subst hupd
        refine ⟨rfl, rfl, fun now2 => ?_⟩
        simp [CacheMetadata.get_status, CacheMetadata.minutes_since_hit, ge_iff_le]
    · by_cases hr : u.cache_read_input_tokens > 0
      · simp only [update_from_response, if_neg hc, if_pos hr,
          Option.some.injEq] at hupd
        subst hupd
        refine ⟨rfl, rfl, fun now2 => ?_⟩
        simp [CacheMetadata.get_status, CacheMetadata.minutes_since_hit, ge_iff_le]
      · exact absurd hfire (by simp [hc, hr])

/-- Witness for C5: the lifecycle at concrete inputs — a fresh checkpoint
(also one built by `create_cache_point`) is `NONE`; after a read-usage
report at time 0 with duration 5 the status is `ACTIVE` at 4 minutes
59 seconds and `EXPIRED` at 6 minutes. -/
theorem C5_status_lifecycle_witness :
    CacheMetadata.get_status
      { cache_point_index := 0, created_at := 0, duration_minutes := 5,
        last_hit_at := none } 1000 = .NONE ∧
    CacheMetadata.get_status
      { cache_point_index := 0, created_at := 0, duration_minutes := 5,
        last_hit_at := some 0 } 299 = .ACTIVE ∧
    CacheMetadata.get_status
      { cache_point_index := 0, created_at := 0, duration_minutes := 5,
        last_hit_at := some 0 } 300 = .EXPIRED ∧
    CacheMetadata.get_status
      { cache_point_index := 0, created_at := 0, duration_minutes := 5,
        last_hit_at := none, total_cached_messages := 1 } 299 = .NONE ∧
    CacheMetadata.get_status
      { cache_point_index := 0, created_at := 0, duration_minutes := 5,
        last_hit_at := some 0, cache_hit_tokens := 10 } 360 = .EXPIRED := by
  refine ⟨?_, ?_, ?_, ?_, ?_⟩
  · exact C5_status_lifecycle.2.2.1
      { cache_point_index := 0, created_at := 0, duration_minutes := 5,
        last_hit_at := none } 1000 rfl
  · have h := (C5_status_lifecycle.2.2.2.1
      { cache_point_index := 0, created_at := 0, duration_minutes := 5,
        last_hit_at := some 0 } 299 0 rfl).1
    exact h.mpr (by decide)
  · have h := (C5_status_lifecycle.2.2.2.1
      { cache_point_index := 0, created_at := 0, duration_minutes := 5,
        last_hit_at := some 0 } 300 0 rfl).2
    exact h.mpr (by decide)
  · exact C5_status_lifecycle.2.2.2.2.1 none
      ([{ role := "user", content := some (.str "hi") }] : List Msg) 5 0 299
      { cache_point_index := 0, created_at := 0, duration_minutes := 5,
        last_hit_at := none, total_cached_messages := 1 }
      (by decide) (by decide)
  · have h := (C5_status_lifecycle.2.2.2.2.2
      { cache_point_index := 0, created_at := 0, duration_minutes := 5 }
      { cache_point_index := 0, created_at := 0, duration_minutes := 5,
        last_hit_at := some 0, cache_hit_tokens := 10 }
      { cache_creation_input_tokens := 0, cache_read_input_tokens := 10 } 0
      (by decide) (Or.inr (by decide))).2.2 360
    simpa using h

/-! ## Claim C6 -/

/-- C6: for a non-empty message list and duration in {5, 60},
`create_cache_point` replaces any existing checkpoint with one whose
`cache_point_index` is `length - 1`, `total_cached_messages` is `length`,
both token counters 0, `last_hit_at` absent and `created_at = now`, and
returns the new index. -/
theorem C6_create_checkpoint :
    ∀ (st : Option CacheMetadata) (msgs : List Msg) (d : Int) (now : Nat),
      msgs ≠ [] → (d = 5 ∨ d = 60) →
      create_cache_point st msgs d now =
        (some { cache_point_index := (msgs.length : Int) - 1, created_at := now,
                duration_minutes := d, last_hit_at := none,
                cache_creation_tokens := 0, cache_hit_tokens := 0,
                total_cached_messages := (msgs.length : Int) },
         some ((msgs.length : Int) - 1)) := by
  intro st msgs d now hne _
  cases msgs with
  | nil => exact absurd rfl hne
  | cons a l =>
      simp [create_cache_point]

/-- Witness for C6 at a concrete three-message list with duration 5. -/
theorem C6_create_checkpoint_witness :
    create_cache_point (some { cache_point_index := 0, created_at := 0,
                               duration_minutes := 60 })
        ([{ role := "user", content := some (.str "a") },
          { role := "assistant", content := some (.str "b") },
          { role := "user", content := some (.str "c") }] : List Msg) 5 42 =
      (some { cache_point_index := 2, created_at := 42, duration_minutes := 5,
              last_hit_at := none, cache_creation_tokens := 0,
              cache_hit_tokens := 0, total_cached_messages := 3 },
       some 2) := by
  have h := C6_create_checkpoint
    (some { cache_point_index := 0, created_at := 0, duration_minutes := 60 })
    ([{ role := "user", content := some (.str "a") },
      { role := "assistant", content := some (.str "b") },
      { role := "user", content := some (.str "c") }] : List Msg) 5 42
    (by decide) (Or.inl rfl)
  simpa using h

/-! ## Claim C7 -/

/-- C7: serialization round-trip — `from_dict (to_dict m)` restores every
field of any checkpoint, including one whose `last_hit_at` is absent. -/
theorem C7_serialize_roundtrip :
    ∀ m : CacheMetadata, CacheMetadata.from_dict (CacheMetadata.to_dict m) = .ok m := by
  intro m
  obtain ⟨idx, created, dur, lh, ct, ht, tot⟩ := m
  cases lh <;>
    simp [CacheMetadata.to_dict, CacheMetadata.from_dict, jget, reqInt, reqDt,
      optDt, getIntD]

/-! ## Claim C8 -/

/-- C8 counterexample: a persisted record missing `cache_creation_tokens`
(one of the fields the claim says must make deserialization fail) loads
successfully — `from_dict` defaults the field to 0. -/
theorem C8_counterexample :
    CacheMetadata.from_dict
        [("cache_point_index", .int 3), ("created_at", .dt 100),
         ("last_hit_at", .null), ("cache_hit_tokens", .int 2),
         ("total_cached_messages", .int 4), ("duration_minutes", .int 5)] =
      .ok { cache_point_index := 3, created_at := 100, last_hit_at := none,
            cache_creation_tokens := 0, cache_hit_tokens := 2,
            total_cached_messages := 4, duration_minutes := 5 } := by
  rfl

/-- C8 amended: `from_dict` fails only on a record missing
`cache_point_index`, `created_at` or `duration_minutes`; a missing
`cache_creation_tokens`, `cache_hit_tokens` or `total_cached_messages`
defaults to 0, and a missing `last_hit_at` loads as absent. -/
theorem C8_required_fields :
    ∀ m : CacheMetadata,
      CacheMetadata.from_dict (eraseKey (CacheMetadata.to_dict m) "cache_creation_tokens") =
        .ok { m with cache_creation_tokens := 0 } ∧
      CacheMetadata.from_dict (eraseKey (CacheMetadata.to_dict m) "cache_hit_tokens") =
        .ok { m with cache_hit_tokens := 0 } ∧
      CacheMetadata.from_dict (eraseKey (CacheMetadata.to_dict m) "total_cached_messages") =
        .ok { m with total_cached_messages := 0 } ∧
      CacheMetadata.from_dict (eraseKey (CacheMetadata.to_dict m) "last_hit_at") =
        .ok { m with last_hit_at := none } ∧
      (∃ e, CacheMetadata.from_dict (eraseKey (CacheMetadata.to_dict m) "cache_point_index") =
        .error e) ∧
      (∃ e, CacheMetadata.from_dict (eraseKey (CacheMetadata.to_dict m) "created_at") =
        .error e) ∧
      (∃ e, CacheMetadata.from_dict (eraseKey (CacheMetadata.to_dict m) "duration_minutes") =
        .error e) := by
  intro m
  obtain ⟨idx, created, dur, lh, ct, ht, tot⟩ := m
  refine ⟨?_, ?_, ?_, ?_, ⟨"KeyError", ?_⟩, ⟨"KeyError", ?_⟩, ⟨"KeyError", ?_⟩⟩ <;>
    cases lh <;>
      simp [CacheMetadata.to_dict, CacheMetadata.from_dict, eraseKey, jget,
        reqInt, reqDt, optDt, getIntD]

/-! ## Claim C9 -/

/-- C9: `create_cache_point` on an empty message list rejects with the
distinguishable outcome `none` (not a failure) and returns whatever
checkpoint state existed before, bit for bit. -/
theorem C9_create_empty_rejects :
    ∀ (st : Option CacheMetadata) (d : Int) (now : Nat),
      create_cache_point st ([] : List Msg) d now = (st, none) := by
  intro st d now
  rfl

/-! ## Claim C10 -/

/-- C10: the `/cache` command path rejects every duration outside {5, 60}
before any checkpoint is created: the state comes back unchanged with the
`invalidDuration` outcome. -/
theorem C10_invalid_duration_rejects :
    ∀ (st : Option CacheMetadata) (msgs : List Msg) (d : Int) (now : Nat),
      ¬(d = 5 ∨ d = 60) →
      cache_command_execute st msgs d now = (st, .invalidDuration) := by
  intro st msgs d now h
  simp [cache_command_execute, h]

/-- Witness for C10 at the claim's example durations 10, 0 and -5. -/
theorem C10_invalid_duration_rejects_witness :
    cache_command_execute (none : Option CacheMetadata) ([] : List Msg) 10 0 =
      (none, .invalidDuration) ∧
    cache_command_execute
        (some { cache_point_index := 0, created_at := 0, duration_minutes := 5 })
        ([{ role := "user", content := some (.str "x") }] : List Msg) 0 1 =
      (some { cache_point_index := 0, created_at := 0, duration_minutes := 5 },
       .invalidDuration) ∧
    cache_command_execute (none : Option CacheMetadata)
        ([{ role := "user", content := some (.str "x") }] : List Msg) (-5) 2 =
      (none, .invalidDuration) := by
  exact ⟨C10_invalid_duration_rejects none ([]) 10 0 (by decide),
         C10_invalid_duration_rejects _ _ 0 1 (by decide),
         C10_invalid_duration_rejects none _ (-5) 2 (by decide)⟩

end ClaudeInterface
